import Mathlib

/-!
Verification of the PyQt5 structural-analysis shell (src/pyqt5lsa.py).

The file embeds the state of the MainWindow and its handlers as pure
transition functions.  External collaborators that are not part of the
source file under verification (the Qt XML parser ET.fromstring, the
tree construction of parse_xml_file, the StructuralDatabase engine from
strudbpkg) are abstracted as function parameters, so each theorem
quantifies over their behaviour.
-/

/-- The dialog boxes a handler can pop up (QMessageBox calls in the source). -/
inductive Dialog where
  | openError (msg : String)
  | saveError (msg : String)
  | saved (msg : String)
  | notImplemented (msg : String)
  | analysisWarning (msg : String)
  deriving DecidableEq

/-- The StructuralDatabase object as seen from the shell: which model file
xml_reader has loaded, and the results_file attribute set by open_file. -/
structure Db where
  loaded : Option String
  results_file : String
  deriving DecidableEq

/-- The mutable state of MainWindow that the claims mention:
current_file and is_modified (lines 36-37), the save button enabled flag
(line 162), the tree model rows, and the three text widgets. -/
structure AppState where
  current_file : String
  is_modified : Bool
  save_button_enabled : Bool
  tree_model : List String
  xml_text : String
  analysis_text : String
  log_text : String
  db : Db
  deriving DecidableEq

/-- External collaborators of open_file and save_file, abstracted:
parseOk models whether ET.fromstring succeeds on a text, treeOf models the
rows produced by parse_xml_file / insert_tree_items, xmlReaderOk models
whether db.xml_reader(filename) returns without raising. -/
structure Env where
  parseOk : String → Bool
  treeOf : String → List String
  xmlReaderOk : String → Bool

/-- A tiny file system: association list from path to content, for the
save_file claims about the content on disk. -/
abbrev Fs := List (String × String)

def Fs.get : Fs → String → Option String
  | [], _ => none
  | (p, c) :: rest, q => if p = q then some c else Fs.get rest q

def Fs.set (fs : Fs) (p c : String) : Fs := (p, c) :: fs

/-- Initial window state from MainWindow.__init__: current_file is the empty
string (line 36), is_modified is False (line 37), the save button is disabled
(line 162); the database object is whatever was passed in. -/
def initState (db0 : Db) : AppState :=
  { current_file := "", is_modified := false, save_button_enabled := false,
    tree_model := [], xml_text := "", analysis_text := "", log_text := "",
    db := db0 }

/-- on_text_changed (lines 308-312): sets is_modified to True if it was not
already, and enables the save button. -/
def on_text_changed (st : AppState) : AppState :=
  { st with is_modified := true, save_button_enabled := true }

/-- self.xml_text.setText(t): replaces the widget text; QTextEdit.setText
fires the textChanged signal, which runs on_text_changed (line 235). -/
def setXmlText (st : AppState) (t : String) : AppState :=
  on_text_changed { st with xml_text := t }

/-- Python str.index(c) on a list of characters: index of the first
occurrence, none when the character does not occur (ValueError). -/
def str_index (c : Char) : List Char → Option Nat
  | [] => none
  | a :: rest => if a = c then some 0 else (str_index c rest).map (· + 1)

/-- Results path derivation of open_file lines 335-336:
index = filename.index(\x27.\x27); results_file = filename[:index] + suffix.
The path is truncated at the FIRST dot of the whole path. -/
def results_path (filename : String) : Option String :=
  match str_index '.' filename.toList with
  | none => none
  | some i => some ((filename.toList.take i).asString ++ "_results.txt")

/-- Spec-side derivation, following the words of the spec: the results path
keeps base name and directory and replaces the extension, that is, the part
after the LAST dot, with the fixed suffix. -/
def results_path_ext_spec (filename : String) : Option String :=
  match str_index '.' filename.toList.reverse with
  | none => none
  | some j =>
      some ((filename.toList.take (filename.toList.length - 1 - j)).asString
        ++ "_results.txt")

/-- open_file (lines 314-338) after the dialog chose filename.
readResult models the outcome of reading the file (none = OSError, caught by
the outer except).  On valid XML the handler clears and rebuilds the tree,
sets current_file, sets the text widget (firing textChanged), calls
db.xml_reader, then derives db.results_file; a failure in any of these later
steps is caught by the outer except, which only shows a dialog.  The model
assumes the file content is stable between the read and parse_xml_file. -/
def open_file (env : Env) (st : AppState) (filename : String)
    (readResult : Option String) : AppState × List Dialog :=
  match readResult with
  | none => (st, [Dialog.openError "read failed"])
  | some file_content =>
    if env.parseOk file_content = false then
      (st, [Dialog.openError "Invalid XML format"])
    else
      let st1 := { st with tree_model := env.treeOf file_content }
      let st2 := { st1 with current_file := filename }
      let st3 := setXmlText st2 file_content
      if env.xmlReaderOk filename = false then
        (st3, [Dialog.openError "xml_reader failed"])
      else
        let st4 := { st3 with db := { st3.db with loaded := some filename } }
        match results_path filename with
        | none => (st4, [Dialog.openError "substring not found"])
        | some p =>
            ({ st4 with db := { st4.db with results_file := p } }, [])

/-- save_file (lines 340-358): early return when there is no current file or
no pending modification; reject invalid XML with a dialog; otherwise write
the text to current_file and clear the modified flag and button.  writeOk
models whether the file write raises (the except branch only shows a dialog;
a partial write of the failing open/write is not modelled because no claim
depends on the disk content of that branch). -/
def save_file (env : Env) (writeOk : Bool) (st : AppState) (fs : Fs) :
    AppState × Fs × List Dialog :=
  if st.current_file = "" ∨ st.is_modified = false then (st, fs, [])
  else if env.parseOk st.xml_text = false then
    (st, fs, [Dialog.saveError "Invalid XML format"])
  else if writeOk then
    ({ st with is_modified := false, save_button_enabled := false },
     fs.set st.current_file st.xml_text,
     [Dialog.saved ("Saved " ++ st.current_file)])
  else
    (st, fs, [Dialog.saveError "write failed"])

/-- run_static_linear (lines 446-453): run the engine, then display the log
file in analysis_text and the results file in log_text.  runAnalysis models
db.run_analysis: on success it yields the new database state, the content it
wrote to the log file and the content it wrote to db.results_file; none
models a raised exception, which propagates out of the handler before any
widget is updated. -/
def run_static_linear (runAnalysis : Db → Option (Db × String × String))
    (st : AppState) : Option AppState :=
  match runAnalysis st.db with
  | none => none
  | some (db2, logContent, resultsContent) =>
      some { st with db := db2, analysis_text := logContent,
                     log_text := resultsContent }

/-- The six items installed in analysis_type_combo (lines 125-132). -/
def analysisTypeItems : List String :=
  ["Static Linear Analysis",
   "Static Nonlinear Analysis",
   "Dynamic Linear Analysis",
   "Dynamic Nonlinear Analysis",
   "Frequency Domain Analysis",
   "Buckling Analysis"]

/-- The branch chosen by the if/elif chain of run_selected_analysis
(lines 429-444), in source order; unknown is the final else. -/
inductive AnalysisBranch where
  | staticLinear
  | staticNonlinear
  | dynamicLinear
  | dynamicNonlinear
  | frequencyDomain
  | buckling
  | unknown
  deriving DecidableEq

def dispatch_branch (anal_type : String) : AnalysisBranch :=
  if anal_type = "Static Linear Analysis" then AnalysisBranch.staticLinear
  else if anal_type = "Static Nonlinear Analysis" then AnalysisBranch.staticNonlinear
  else if anal_type = "Dynamic Linear Analysis" then AnalysisBranch.dynamicLinear
  else if anal_type = "Dynamic Nonlinear Analysis" then AnalysisBranch.dynamicNonlinear
  else if anal_type = "Frequency Domain Analysis" then AnalysisBranch.frequencyDomain
  else if anal_type = "Buckling Analysis" then AnalysisBranch.buckling
  else AnalysisBranch.unknown

/-- The exact text of the not-implemented stubs (lines 455-468). -/
def not_implemented_text (name : String) : String :=
  name ++ " is not yet implemented."

/-- run_selected_analysis (lines 429-444): dispatch on the combo text;
Static Linear runs the engine, the five stubs pop an information box and
touch nothing, the final else warns about an unknown type. -/
def run_selected_analysis (runAnalysis : Db → Option (Db × String × String))
    (st : AppState) (anal_type : String) : Option (AppState × List Dialog) :=
  match dispatch_branch anal_type with
  | AnalysisBranch.staticLinear =>
      match run_static_linear runAnalysis st with
      | none => none
      | some st2 => some (st2, [])
  | AnalysisBranch.staticNonlinear =>
      some (st, [Dialog.notImplemented (not_implemented_text "Static Nonlinear Analysis")])
  | AnalysisBranch.dynamicLinear =>
      some (st, [Dialog.notImplemented (not_implemented_text "Dynamic Linear Analysis")])
  | AnalysisBranch.dynamicNonlinear =>
      some (st, [Dialog.notImplemented (not_implemented_text "Dynamic Nonlinear Analysis")])
  | AnalysisBranch.frequencyDomain =>
      some (st, [Dialog.notImplemented (not_implemented_text "Frequency Domain Analysis")])
  | AnalysisBranch.buckling =>
      some (st, [Dialog.notImplemented (not_implemented_text "Buckling Analysis")])
  | AnalysisBranch.unknown =>
      some (st, [Dialog.analysisWarning "Unknown analysis type selected."])

/-- Modelled from the spec: the active engine entry point
strudbpkg.StructuralDatabase.run_analysis and its solver bgaussgen are not
under src; the solver cross-check contract is taken from the spec and from
the reference path preserved in comments at src/pyqt5lsa.py lines 399-404.
assert_almost_equal with decimal=6 accepts two numbers when the absolute
difference is below 1.5e-6; this is that tolerance as a rational. -/
def tol6 : ℚ := 3 / 2000000

/-- Modelled from the spec: entrywise agreement test of the two solver
results, abs(x - y) below the 6-decimal tolerance. -/
def entry_agrees6 (x y : ℚ) : Bool := decide (|x - y| < tol6)

/-- Modelled from the spec: the vector form of the assert_almost_equal
check over the flattened displacement solutions. -/
def vec_agrees6 (u v : List ℚ) : Bool :=
  (u.zip v).all fun p => entry_agrees6 p.1 p.2

/-- Modelled from the spec: the substitution policy of section 4.4 - keep
the specialized elimination result al when it agrees with the reference
solveh_banded result to 6 decimals, otherwise substitute the reference
result before force recovery proceeds. -/
def substitute_if_diverged (al alScipy : List ℚ) : List ℚ :=
  if vec_agrees6 al alScipy then al else alScipy

/-! ## Helper lemmas -/

theorem take_length_append {α : Type} (l1 l2 : List α) :
    (l1 ++ l2).take l1.length = l1 := by
  induction l1 with
  | nil => simp
  | cons a t ih => simp [ih]

theorem asString_toList (s : String) : s.toList.asString = s := rfl

theorem toList_append (s t : String) :
    (s ++ t).toList = s.toList ++ t.toList :=
  String.data_append s t

theorem str_index_eq_none_iff (c : Char) (l : List Char) :
    str_index c l = none ↔ ∀ a ∈ l, a ≠ c := by
  induction l with
  | nil => simp [str_index]
  | cons a rest ih =>
    by_cases h : a = c
    · simp [str_index, h]
    · simp [str_index, h, ih]

theorem str_index_append_eq (c : Char) (l1 l2 : List Char)
    (h : ∀ a ∈ l1, a ≠ c) :
    str_index c (l1 ++ c :: l2) = some l1.length := by
  induction l1 with
  | nil => simp [str_index]
  | cons a rest ih =>
    have ha : a ≠ c := h a (List.mem_cons_self a rest)
    simp [str_index, ha, ih fun x hx => h x (List.mem_cons_of_mem a hx)]

theorem results_path_eq (filename : String) (i : Nat)
    (h : str_index '.' filename.toList = some i) :
    results_path filename
      = some ((filename.toList.take i).asString ++ "_results.txt") := by
  unfold results_path
  rw [h]

theorem results_path_ext_spec_eq (filename : String) (j : Nat)
    (h : str_index '.' filename.toList.reverse = some j) :
    results_path_ext_spec filename
      = some ((filename.toList.take (filename.toList.length - 1 - j)).asString
          ++ "_results.txt") := by
  unfold results_path_ext_spec
  rw [h]

theorem vec_agrees6_entry (u : List ℚ) :
    ∀ (v : List ℚ), vec_agrees6 u v = true →
      ∀ (i : ℕ), i < u.length → i < v.length →
        |u.getD i 0 - v.getD i 0| < tol6 := by
  induction u with
  | nil => intro v h i hu hv; exact absurd hu (by simp)
  | cons a u ih =>
    intro v h i hu hv
    cases v with
    | nil => exact absurd hv (by simp)
    | cons b v =>
      have hsplit : entry_agrees6 a b = true ∧ vec_agrees6 u v = true := by
        simpa [vec_agrees6] using h
      cases i with
      | zero =>
        simpa [entry_agrees6] using of_decide_eq_true hsplit.1
      | succ n =>
        simpa using ih v hsplit.2 n (Nat.lt_of_succ_lt_succ hu)
          (Nat.lt_of_succ_lt_succ hv)

/-! ## Claim C1 -/

/-- Claim C1: the displacement solution that force recovery proceeds with is
the specialized elimination result when it agrees with the reference
solveh_banded result to 6 decimals, is the substituted reference result
otherwise, and in every case agrees entrywise with the reference result to
the 6-decimal tolerance. -/
theorem c1_solver_substitution (al alScipy : List ℚ)
    (h : al.length = alScipy.length) :
    (vec_agrees6 al alScipy = true → substitute_if_diverged al alScipy = al) ∧
    (vec_agrees6 al alScipy = false →
      substitute_if_diverged al alScipy = alScipy) ∧
    ∀ (i : ℕ), i < alScipy.length →
      |(substitute_if_diverged al alScipy).getD i 0 - alScipy.getD i 0|
        < tol6 := by
  by_cases hA : vec_agrees6 al alScipy = true
  · have hre : substitute_if_diverged al alScipy = al := by
      unfold substitute_if_diverged
      rw [if_pos hA]
    refine ⟨fun _ => hre, fun hf => absurd hA (by simp [hf]), ?_⟩
    intro i hv
    rw [hre]
    exact vec_agrees6_entry al alScipy hA i (h ▸ hv) hv
  · have hre : substitute_if_diverged al alScipy = alScipy := by
      unfold substitute_if_diverged
      rw [if_neg hA]
    refine ⟨fun ht => absurd ht hA, fun _ => hre, ?_⟩
    intro i hv
    rw [hre, sub_self, abs_zero]
    norm_num [tol6]

/-- Witness for C1 at a concrete agreeing pair of solver results. -/
theorem c1_solver_substitution_witness :
    substitute_if_diverged [(1 : ℚ)] [(1 : ℚ)] = [(1 : ℚ)] :=
  (c1_solver_substitution [(1 : ℚ)] [(1 : ℚ)] rfl).1
    (by simp [vec_agrees6, entry_agrees6, tol6])

/-! ## Claim C2 -/

/-- Claim C2 counterexample: for the accepted model path my.model.xml the
code truncates at the FIRST dot, producing my_results.txt, while replacing
the extension (keeping the base name my.model) would produce
my.model_results.txt; the two derivations disagree. -/
theorem c2_counterexample :
    results_path "my.model.xml" = some "my_results.txt" ∧
    results_path_ext_spec "my.model.xml" = some "my.model_results.txt" ∧
    results_path "my.model.xml" ≠ results_path_ext_spec "my.model.xml" := by
  decide

/-- Claim C2 (amended): the results path is obtained by truncating the model
path at its FIRST dot and appending _results.txt; this agrees with the
spec-side extension replacement exactly when no dot occurs before the
extension separator, e.g. for every path of shape base.ext with dot-free
base and extension, where both derivations keep base and append the
suffix. -/
theorem c2_results_path_first_dot (base ext : String)
    (hb : ∀ a ∈ base.toList, a ≠ '.')
    (he : ∀ a ∈ ext.toList, a ≠ '.') :
    results_path (base ++ "." ++ ext) = some (base ++ "_results.txt") ∧
    results_path_ext_spec (base ++ "." ++ ext)
      = some (base ++ "_results.txt") := by
  have hsplit : (base ++ "." ++ ext).toList
      = base.toList ++ '.' :: ext.toList := by
    rw [toList_append, toList_append]
    simp
  have hrev : (base ++ "." ++ ext).toList.reverse
      = ext.toList.reverse ++ '.' :: base.toList.reverse := by
    rw [hsplit]
    simp
  constructor
  · rw [results_path_eq _ base.toList.length
      (by rw [hsplit]; exact str_index_append_eq '.' _ _ hb)]
    rw [hsplit, take_length_append, asString_toList]
  · have he' : ∀ a ∈ ext.toList.reverse, a ≠ '.' :=
      fun a ha => he a (List.mem_reverse.mp ha)
    rw [results_path_ext_spec_eq _ ext.toList.reverse.length
      (by rw [hrev]; exact str_index_append_eq '.' _ _ he')]
    have hlen : (base ++ "." ++ ext).toList.length - 1
        - ext.toList.reverse.length = base.toList.length := by
      rw [hsplit]
      simp [List.length_append]
    rw [hlen, hsplit, take_length_append, asString_toList]

/-- Witness for C2 (amended) at model.xml. -/
theorem c2_results_path_first_dot_witness :
    results_path ("model" ++ "." ++ "xml") = some ("model" ++ "_results.txt") :=
  (c2_results_path_first_dot "model" "xml" (by decide) (by decide)).1

/-! ## Fixtures for witnesses -/

def db0 : Db := { loaded := none, results_file := "old_results.txt" }

def st0 : AppState :=
  { current_file := "old.xml", is_modified := false,
    save_button_enabled := false, tree_model := [], xml_text := "",
    analysis_text := "", log_text := "", db := db0 }

def envAllValid : Env :=
  { parseOk := fun _ => true, treeOf := fun c => [c],
    xmlReaderOk := fun _ => true }

def envParseFail : Env :=
  { parseOk := fun _ => false, treeOf := fun c => [c],
    xmlReaderOk := fun _ => true }

def runAnalysisOk : Db → Option (Db × String × String) :=
  fun d => some (d, "log line", "report body")

/-! ## Claim C3 -/

/-- Claim C3: for every analysis type of the combo box other than Static
Linear, run_selected_analysis returns normally (no crash), pops exactly the
not-implemented information box (no silent no-op), leaves the window and
database state exactly as they were, and does so for every possible engine
behaviour (the engine is never invoked); the Static Linear selection is the
one that runs the engine. -/
theorem c3_other_types_stub (runAnalysis : Db → Option (Db × String × String))
    (st : AppState) (t : String) (ht : t ∈ analysisTypeItems)
    (hne : t ≠ "Static Linear Analysis") :
    run_selected_analysis runAnalysis st t
      = some (st, [Dialog.notImplemented (not_implemented_text t)]) ∧
    run_selected_analysis runAnalysis st "Static Linear Analysis"
      = (run_static_linear runAnalysis st).map (fun st2 => (st2, [])) := by
  constructor
  · simp only [analysisTypeItems, List.mem_cons, List.not_mem_nil,
      or_false] at ht
    rcases ht with rfl | rfl | rfl | rfl | rfl | rfl
    · exact absurd rfl hne
    · rfl
    · rfl
    · rfl
    · rfl
    · rfl
  · cases hrun : run_static_linear runAnalysis st with
    | none => simp [run_selected_analysis, dispatch_branch, hrun]
    | some st2 => simp [run_selected_analysis, dispatch_branch, hrun]

/-- Witness for C3 at the Buckling selection. -/
theorem c3_other_types_stub_witness :
    run_selected_analysis runAnalysisOk st0 "Buckling Analysis"
      = some (st0,
          [Dialog.notImplemented (not_implemented_text "Buckling Analysis")]) :=
  (c3_other_types_stub runAnalysisOk st0 "Buckling Analysis"
    (by decide) (by decide)).1

/-! ## Claim C4 -/

/-- Claim C4: when the selected file reads back a content that is not
well-formed XML, open_file pops the Invalid XML format error and the whole
application state (current_file, tree model, displayed text, database,
results path) is exactly what it was before the attempt. -/
theorem c4_invalid_xml_leaves_state (env : Env) (st : AppState)
    (filename content : String) (h : env.parseOk content = false) :
    open_file env st filename (some content)
      = (st, [Dialog.openError "Invalid XML format"]) := by
  simp [open_file, h]

/-- Witness for C4: a parser that rejects everything leaves st0 unchanged. -/
theorem c4_invalid_xml_leaves_state_witness :
    open_file envParseFail st0 "m.xml" (some "<bad")
      = (st0, [Dialog.openError "Invalid XML format"]) :=
  c4_invalid_xml_leaves_state envParseFail st0 "m.xml" "<bad" rfl

/-! ## Claim C5 -/

/-- Claim C5: when the engine run succeeds, the results text presented in the
widget is exactly the report that run produced (and the analysis widget shows
exactly that run's log); when the engine run raises, run_static_linear
performs no widget update at all, so the previous display is never
re-presented as the result of this run. -/
theorem c5_fresh_report_presented
    (runAnalysis : Db → Option (Db × String × String)) (st : AppState) :
    (∀ db2 logContent reportContent,
      runAnalysis st.db = some (db2, logContent, reportContent) →
        run_static_linear runAnalysis st
          = some { st with db := db2, analysis_text := logContent,
                           log_text := reportContent }) ∧
    (runAnalysis st.db = none → run_static_linear runAnalysis st = none) := by
  constructor
  · intro db2 logContent reportContent hrun
    simp [run_static_linear, hrun]
  · intro hrun
    simp [run_static_linear, hrun]

/-- Witness for C5 with a concrete successful engine run. -/
theorem c5_fresh_report_presented_witness :
    run_static_linear runAnalysisOk st0
      = some { st0 with db := st0.db, analysis_text := "log line",
                        log_text := "report body" } :=
  (c5_fresh_report_presented runAnalysisOk st0).1 st0.db "log line"
    "report body" rfl

/-! ## Claim C7 -/

/-- Claim C7: for every one of the six texts installed in the combo box the
dispatch of run_selected_analysis reaches a named branch, never the final
else, and the Unknown analysis type warning can never be among the dialogs
of a run started from one of those selections. -/
theorem c7_unknown_branch_unreachable (t : String)
    (ht : t ∈ analysisTypeItems) :
    dispatch_branch t ≠ AnalysisBranch.unknown ∧
    ∀ (runAnalysis : Db → Option (Db × String × String)) (st : AppState)
      (r : AppState × List Dialog),
      run_selected_analysis runAnalysis st t = some r →
        Dialog.analysisWarning "Unknown analysis type selected." ∉ r.2 := by
  simp only [analysisTypeItems, List.mem_cons, List.not_mem_nil,
    or_false] at ht
  rcases ht with rfl | rfl | rfl | rfl | rfl | rfl <;>
    refine ⟨by decide, ?_⟩ <;>
    intro runAnalysis st r hr
  · simp only [run_selected_analysis, dispatch_branch, if_pos rfl] at hr
    cases hrun : run_static_linear runAnalysis st with
    | none => rw [hrun] at hr; exact absurd hr (by simp)
    | some st2 =>
        rw [hrun] at hr
        cases hr
        simp
  all_goals
    cases hr
    simp

/-- Witness for C7 at the Frequency Domain selection. -/
theorem c7_unknown_branch_unreachable_witness :
    dispatch_branch "Frequency Domain Analysis" ≠ AnalysisBranch.unknown :=
  (c7_unknown_branch_unreachable "Frequency Domain Analysis" (by decide)).1

/-! ## Claim C6 -/

/-- Claim C6 counterexample: opening the valid-XML file named modelxml (no
dot, so the results-path derivation raises ValueError after everything else
succeeded) ends in the error dialog with current_file, text and database
already updated while results_file still holds its old value: the commit is
partial, neither all-of-it nor none-of-it. -/
theorem c6_counterexample :
    (open_file envAllValid st0 "modelxml" (some "<m/>")).1.current_file
      = "modelxml" ∧
    (open_file envAllValid st0 "modelxml" (some "<m/>")).1.db.loaded
      = some "modelxml" ∧
    (open_file envAllValid st0 "modelxml" (some "<m/>")).1.db.results_file
      = "old_results.txt" ∧
    (open_file envAllValid st0 "modelxml" (some "<m/>")).2
      = [Dialog.openError "substring not found"] ∧
    (open_file envAllValid st0 "modelxml" (some "<m/>")).1 ≠ st0 := by
  decide

/-- Claim C6 (amended): a failure in open_file after XML validation reports
the error and aborts the remaining steps, but it does NOT roll back: the
updates already made (tree model, current_file, displayed text and, when
xml_reader succeeded, the database load) persist, while the steps after the
failing one (here db.results_file) keep their previous value. -/
theorem c6_partial_commit (env : Env) (st : AppState)
    (filename content : String) (hp : env.parseOk content = true) :
    (env.xmlReaderOk filename = false →
      open_file env st filename (some content)
        = (setXmlText
            { st with tree_model := env.treeOf content,
                      current_file := filename } content,
           [Dialog.openError "xml_reader failed"])) ∧
    (env.xmlReaderOk filename = true → results_path filename = none →
      (open_file env st filename (some content)).1.current_file = filename ∧
      (open_file env st filename (some content)).1.xml_text = content ∧
      (open_file env st filename (some content)).1.db.loaded
        = some filename ∧
      (open_file env st filename (some content)).1.db.results_file
        = st.db.results_file ∧
      (open_file env st filename (some content)).2
        = [Dialog.openError "substring not found"]) := by
  constructor
  · intro hx
    simp [open_file, hp, hx]
  · intro hx hrp
    simp [open_file, hp, hx, hrp, setXmlText, on_text_changed]

/-- Witness for C6 (amended): the no-dot open leaves results_file alone. -/
theorem c6_partial_commit_witness :
    (open_file envAllValid st0 "modelxml" (some "<m/>")).1.db.results_file
      = st0.db.results_file :=
  ((c6_partial_commit envAllValid st0 "modelxml" "<m/>" rfl).2 rfl
    (by decide)).2.2.2.1

/-! ## Claim C8 -/

/-- The invariant of the claim: the save button is enabled exactly when
is_modified is set. -/
def save_modified_inv (st : AppState) : Prop :=
  st.save_button_enabled = st.is_modified

/-- Claim C8: the save-button/is_modified invariant holds in the initial
state, on_text_changed establishes both flags (hence the invariant), and the
invariant is preserved by on_text_changed, by every save_file outcome
(skipped, rejected, successful, failed write) and by every open_file
outcome. -/
theorem c8_save_button_invariant :
    (∀ d : Db, save_modified_inv (initState d)) ∧
    (∀ st, (on_text_changed st).is_modified = true ∧
      (on_text_changed st).save_button_enabled = true) ∧
    (∀ st, save_modified_inv st → save_modified_inv (on_text_changed st)) ∧
    (∀ (env : Env) (writeOk : Bool) (st : AppState) (fs : Fs),
      save_modified_inv st →
        save_modified_inv (save_file env writeOk st fs).1) ∧
    (∀ (env : Env) (st : AppState) (filename : String)
      (readResult : Option String), save_modified_inv st →
        save_modified_inv (open_file env st filename readResult).1) := by
  refine ⟨fun d => rfl, fun st => ⟨rfl, rfl⟩, fun st _ => rfl, ?_, ?_⟩
  · intro env writeOk st fs h
    unfold save_file
    split_ifs <;> simp_all [save_modified_inv]
  · intro env st filename readResult h
    cases readResult with
    | none => simpa [open_file] using h
    | some content =>
      by_cases hp : env.parseOk content = false
      · simpa [open_file, hp] using h
      · by_cases hx : env.xmlReaderOk filename = false
        · simp [open_file, hp, hx, setXmlText, on_text_changed,
            save_modified_inv]
        · cases hrp : results_path filename with
          | none =>
              simp [open_file, hp, hx, hrp, setXmlText, on_text_changed,
                save_modified_inv]
          | some p =>
              simp [open_file, hp, hx, hrp, setXmlText, on_text_changed,
                save_modified_inv]

/-- Witness for C8 at a concrete successful save from a consistent state. -/
theorem c8_save_button_invariant_witness :
    save_modified_inv (save_file envAllValid true st0 []).1 :=
  c8_save_button_invariant.2.2.2.1 envAllValid true st0 [] rfl

/-! ## Claim C9 -/

/-- Claim C9: a save attempt from an edited state whose text is not
well-formed XML writes nothing to disk (the file system and in particular
the content at current_file are untouched), pops the Invalid XML format
error, and keeps is_modified set, so the edit is not marked as saved. -/
theorem c9_invalid_xml_not_saved (env : Env) (writeOk : Bool)
    (st : AppState) (fs : Fs) (h1 : ¬ st.current_file = "")
    (h2 : st.is_modified = true) (h3 : env.parseOk st.xml_text = false) :
    save_file env writeOk st fs
      = (st, fs, [Dialog.saveError "Invalid XML format"]) ∧
    (save_file env writeOk st fs).2.1.get st.current_file
      = fs.get st.current_file ∧
    (save_file env writeOk st fs).1.is_modified = true := by
  have hguard : ¬(st.current_file = "" ∨ st.is_modified = false) := by
    simp [h1, h2]
  have hmain : save_file env writeOk st fs
      = (st, fs, [Dialog.saveError "Invalid XML format"]) := by
    unfold save_file
    rw [if_neg hguard, if_pos h3]
  exact ⟨hmain, by rw [hmain], by rw [hmain]; exact h2⟩

/-- A state with a pending edit, for the save_file witnesses. -/
def stModified : AppState :=
  { st0 with is_modified := true, save_button_enabled := true }

/-- Witness for C9: rejecting parser, edited state, empty disk. -/
theorem c9_invalid_xml_not_saved_witness :
    save_file envParseFail true stModified []
      = (stModified, [], [Dialog.saveError "Invalid XML format"]) :=
  (c9_invalid_xml_not_saved envParseFail true stModified []
    (by decide) rfl rfl).1

/-! ## Claim C10 -/

/-- Claim C10: opening a file whose content passes XML validation by itself
sets is_modified and enables the save button, with no user edit, because
setText on the text widget fires textChanged and hence on_text_changed;
this holds on the fully successful path and on every later failure path,
since setText runs before xml_reader and the results-path derivation. -/
theorem c10_open_marks_modified (env : Env) (st : AppState)
    (filename content : String) (hp : env.parseOk content = true) :
    (open_file env st filename (some content)).1.is_modified = true ∧
    (open_file env st filename (some content)).1.save_button_enabled
      = true := by
  by_cases hx : env.xmlReaderOk filename = false
  · simp [open_file, hp, hx, setXmlText, on_text_changed]
  · cases hrp : results_path filename with
    | none => simp [open_file, hp, hx, hrp, setXmlText, on_text_changed]
    | some p => simp [open_file, hp, hx, hrp, setXmlText, on_text_changed]

/-- Witness for C10 at a successful concrete open. -/
theorem c10_open_marks_modified_witness :
    (open_file envAllValid st0 "m.xml" (some "<a/>")).1.is_modified = true :=
  (c10_open_marks_modified envAllValid st0 "m.xml" "<a/>" rfl).1
